import Mathlib

/-!
Verification development for the immich-backup component of the homelab
repository (src/apps/immich-backup/backup.py, restore.py, verify-restore.py).

Each definition is a shallow embedding of the corresponding Python function;
doc comments cite the source file and line numbers it was translated from.
-/

set_option autoImplicit false

namespace ImmichBackup

/-! ## Remote object location derivation (backup.py, restore.py, verify-restore.py) -/

/-- Python `s.lstrip('/')`: remove every leading slash character. -/
def lstripSlash (s : String) : String :=
  String.mk (s.data.dropWhile (fun c => c == '/'))

/-- `BackupManifest._derive_gcs_path` (backup.py lines 111-115):
`clean_path = file_path.lstrip('/')` then `f"library/{clean_path}"`. -/
def derive_gcs_path (file_path : String) : String :=
  "library/" ++ lstripSlash file_path

/-- `derive_gcs_path` in verify-restore.py lines 79-83: identical body to
`BackupManifest._derive_gcs_path`. -/
def verify_derive_gcs_path (file_path : String) : String :=
  "library/" ++ lstripSlash file_path

/-- restore.py line 245 inside `main`: `gcs_path = f"library/{file_path}"`.
The leading slash of the manifest path is NOT stripped here. -/
def restore_gcs_path (file_path : String) : String :=
  "library/" ++ file_path

/-! ## Manifest data model (backup.py lines 60-242)

The `files` table has primary key `file_path` and columns `checksum`, `size`,
`archived` (backup.py lines 98-105).  We model it as an association list keyed
by the path; `INSERT OR REPLACE` is insert-or-replace on that key. -/

/-- One row of the `files` table (backup.py lines 98-105). -/
structure Entry where
  checksum : String
  size : Nat
  archived : Bool
  deriving DecidableEq, Repr

/-- The `files` table: one row per path, keyed by `file_path`. -/
abbrev Manifest := List (String × Entry)

/-- `BackupManifest.get_file_info` (backup.py lines 193-207): point query of the
`files` table by primary key `file_path`. -/
def get_file_info : Manifest → String → Option Entry
  | [], _ => none
  | (q, e) :: rest, p => if q = p then some e else get_file_info rest p

/-- `BackupManifest.update_file_info` (backup.py lines 209-218):
`INSERT OR REPLACE INTO files` keyed on `file_path`. -/
def update_file_info : Manifest → String → Entry → Manifest
  | [], p, e => [(p, e)]
  | (q, e0) :: rest, p, e =>
    if q = p then (p, e) :: rest else (q, e0) :: update_file_info rest p e

/-! ## Per-file pipeline (`_process_single_file`, backup.py lines 300-389) -/

/-- Outcome status returned by `_process_single_file` (backup.py line 304). -/
inductive Status where
  | uploaded
  | skipped
  | error
  deriving DecidableEq, Repr

/-- Observable operations performed while processing one file, in program
order: `file_path.stat()` (line 311), `calculate_sha256` (line 325),
`blob.upload_from_filename` via retry (line 350), `blob.reload()` (line 353),
storage-class patch via retry (line 365), existence confirmation via retry
(line 373), `manifest.update_file_info` (line 377). -/
inductive Effect where
  | statE
  | hashE
  | uploadE
  | reloadE
  | setClassE
  | verifyE
  | upsertE
  deriving DecidableEq, Repr

/-- Environment describing what each fallible step of `_process_single_file`
would do for the file at hand.  `statResult` is the size returned by
`file_path.stat()` (`none` when stat raises); `hashResult` is the value of
`calculate_sha256` (`none` when reading raises); the four Booleans say whether
the retried upload, the `blob.reload()`, the retried storage-class patch and
the retried existence confirmation succeed after their retry budgets. -/
structure FileEnv where
  statResult : Option Nat
  hashResult : Option String
  uploadOk : Bool
  reloadOk : Bool
  setClassOk : Bool
  verifyOk : Bool
  deriving DecidableEq, Repr

/-- The fast-path condition of backup.py line 318:
`existing_info and existing_info.get('size') == file_size`. -/
def fastSkipCheck (m : Manifest) (path : String) (fileSize : Nat) : Bool :=
  match get_file_info m path with
  | some info => info.size == fileSize
  | none => false

/-- The slow-path recheck condition of backup.py line 330:
`existing_info and existing_info.get('checksum') == checksum`. -/
def hashSkipCheck (m : Manifest) (path : String) (checksum : String) : Bool :=
  match get_file_info m path with
  | some info => info.checksum == checksum
  | none => false

/-- The upload stage of `_process_single_file` (backup.py lines 334-384): the
retried upload, `blob.reload()`, the retried storage-class patch, the retried
existence confirmation, and only then `manifest.update_file_info`.  A failure
at any step is caught by the `except` at line 381 and reported as an error
with the manifest untouched. -/
def afterHash (env : FileEnv) (path : String) (m : Manifest) (fileSize : Nat)
    (checksum : String) : Status × Manifest × List Effect :=
  if env.uploadOk then
    if env.reloadOk then
      if env.setClassOk then
        if env.verifyOk then
          (Status.uploaded, update_file_info m path (Entry.mk checksum fileSize false),
            [Effect.statE, Effect.hashE, Effect.uploadE, Effect.reloadE,
             Effect.setClassE, Effect.verifyE, Effect.upsertE])
        else
          (Status.error, m,
            [Effect.statE, Effect.hashE, Effect.uploadE, Effect.reloadE,
             Effect.setClassE, Effect.verifyE])
      else
        (Status.error, m,
          [Effect.statE, Effect.hashE, Effect.uploadE, Effect.reloadE, Effect.setClassE])
    else
      (Status.error, m, [Effect.statE, Effect.hashE, Effect.uploadE, Effect.reloadE])
  else
    (Status.error, m, [Effect.statE, Effect.hashE, Effect.uploadE])

/-- `_process_single_file` (backup.py lines 300-389) for the file whose
manifest key is `path`, against manifest state `m`.  Returns the outcome
status, the manifest state afterwards, and the ordered effects performed.
Stat failure and hash failure are caught by the outer `except` at line 386. -/
def processSingleFile (env : FileEnv) (path : String) (m : Manifest) :
    Status × Manifest × List Effect :=
  match env.statResult with
  | none => (Status.error, m, [Effect.statE])
  | some fileSize =>
    if fastSkipCheck m path fileSize then
      (Status.skipped, m, [Effect.statE])
    else
      match env.hashResult with
      | none => (Status.error, m, [Effect.statE, Effect.hashE])
      | some checksum =>
        if hashSkipCheck m path checksum then
          (Status.skipped, m, [Effect.statE, Effect.hashE])
        else
          afterHash env path m fileSize checksum

/-- Sequential model of a backup run over a list of per-file tasks
(`backup_library_files`, backup.py lines 445-572): each discovered file is
handed to `_process_single_file`; manifest mutation is serialized by
`manifest_lock`, so the run is a fold of `processSingleFile` over the tasks.
Returns the final manifest and the per-file statuses in task order. -/
def runTasks : Manifest → List (FileEnv × String) → Manifest × List Status
  | m, [] => (m, [])
  | m, t :: rest =>
    let r := processSingleFile t.1 t.2 m
    let tail := runTasks r.2.1 rest
    (tail.1, r.1 :: tail.2)

/-- A file of the source tree: its manifest key (path with leading slash,
backup.py line 307), its on-disk size and its SHA-256 content digest. -/
structure FileRec where
  path : String
  size : Nat
  digest : String
  deriving DecidableEq, Repr

/-- The environment of a file during a run in which every remote operation
succeeds and the file is readable: stat yields its size, hashing yields its
digest, and upload, reload, storage-class patch and confirmation all succeed. -/
def happyEnv (f : FileRec) : FileEnv :=
  { statResult := some f.size
    hashResult := some f.digest
    uploadOk := true
    reloadOk := true
    setClassOk := true
    verifyOk := true }

/-- A full backup run over an unchanged, fully readable source tree with a
healthy remote store, starting from manifest `m`. -/
def runBackup (tree : List FileRec) (m : Manifest) : Manifest × List Status :=
  runTasks m (tree.map (fun f => (happyEnv f, f.path)))

/-- Number of `uploaded` outcomes in a status list (the `new_files` counter of
`_process_completed_future`, backup.py lines 402-403). -/
def countUploaded : List Status → Nat
  | [] => 0
  | Status.uploaded :: rest => countUploaded rest + 1
  | _ :: rest => countUploaded rest

/-! ## `BackupManifest.load` (backup.py lines 117-137)

`load` wraps everything in `try/except` and returns a Bool.  Its observable
outcome is the returned flag, the reported file count, and the state the
cached SQLite connection (`self.conn`) is left in, which determines how every
later `get_file_info` behaves.  Crucially, `_get_connection` (lines 78-87)
assigns `self.conn` *before* `_init_schema` runs, so when the downloaded
snapshot is not a readable database, the connection to the corrupt file stays
cached and every later query on it raises. -/

/-- The remote-store situation `load` runs against: whether the
`blob.exists()` call itself succeeds, whether the snapshot object exists,
whether `download_to_filename` succeeds, whether the downloaded file is a
readable SQLite database, and, when readable, the rows of its `files` table. -/
structure RemoteState where
  existsCheckOk : Bool
  snapshotExists : Bool
  fetchOk : Bool
  parseOk : Bool
  snapshot : Manifest
  deriving DecidableEq, Repr

/-- State of the cached SQLite connection after `load` returns.
`noConn`: `self.conn` is still `None`; the first later query opens the (empty
or never-written) temp file as a fresh database, so lookups see an empty
index.  `loadedDb`: the snapshot was opened successfully.  `poisoned`:
`self.conn` was cached pointing at a corrupt file by `_get_connection`
(backup.py line 84) before `_init_schema` raised, so every later query
raises. -/
inductive ConnState where
  | noConn
  | loadedDb (rows : Manifest)
  | poisoned
  deriving DecidableEq, Repr

/-- `BackupManifest.load` (backup.py lines 117-137): returns the `found` flag,
the connection state left behind, and `self._file_count` when it was set. -/
def loadManifest (r : RemoteState) : Bool × ConnState × Option Nat :=
  if r.existsCheckOk = false then (false, ConnState.noConn, none)
  else if r.snapshotExists = false then (false, ConnState.noConn, none)
  else if r.fetchOk = false then (false, ConnState.noConn, none)
  else if r.parseOk = false then (false, ConnState.poisoned, none)
  else (true, ConnState.loadedDb r.snapshot, some r.snapshot.length)

/-- `BackupManifest.get_file_info` as executed after `load`, through the cached
connection: `Except.error ()` models the SQLite query raising (propagated out
of `get_file_info`, which has no handler, backup.py lines 193-207). -/
def connLookup (c : ConnState) (path : String) : Except Unit (Option Entry) :=
  match c with
  | ConnState.noConn => Except.ok none
  | ConnState.loadedDb rows => Except.ok (get_file_info rows path)
  | ConnState.poisoned => Except.error ()

/-! ## `retry_with_backoff` (backup.py lines 265-297)

The loop runs `attempt = 0 .. max_retries-1`; on failure it sleeps `delay`
and only then updates `delay = min(delay * backoff_factor, max_delay)`, so
the first sleep is `initial_delay` itself, uncapped.  Python float delays are
idealized as exact rationals.  The model returns the final outcome (`none`
models the degenerate `raise None` when `max_retries = 0`), the list of sleep
durations in order, and the number of times the operation was invoked. -/

/-- Whether an `Except` value is an error. -/
def isErr {E A : Type} : Except E A → Bool
  | Except.error _ => true
  | Except.ok _ => false

/-- The delay update of backup.py line 293: `min(delay * backoff_factor, max_delay)`. -/
def nextDelay (maxD f d : ℚ) : ℚ := min (d * f) maxD

/-- The duration of the i-th sleep (i from 0) when the first sleep uses
`d0`: `delayAt d0 maxD f 0 = d0` and each later sleep applies `nextDelay`. -/
def delayAt (d0 maxD f : ℚ) : Nat → ℚ
  | 0 => d0
  | i + 1 => nextDelay maxD f (delayAt d0 maxD f i)

/-- The retry loop of backup.py lines 285-297, parametrized by the current
attempt index, the current delay, and the number of attempts remaining.
`op att` is the outcome of invoking the operation on attempt `att`: a success
is returned at once; a failure on the last attempt propagates; otherwise the
loop sleeps `delay` and retries with the updated delay. -/
def retryGo {E A : Type} (op : Nat → Except E A) (maxD f : ℚ) :
    Nat → ℚ → Nat → Option (Except E A) × List ℚ × Nat
  | _, _, 0 => (none, [], 0)
  | attempt, delay, n + 1 =>
    if isErr (op attempt) = false then (some (op attempt), [], 1)
    else if n = 0 then (some (op attempt), [], 1)
    else
      let rest := retryGo op maxD f (attempt + 1) (min (delay * f) maxD) n
      (rest.1, delay :: rest.2.1, rest.2.2 + 1)

/-- `retry_with_backoff(func, max_retries, initial_delay, max_delay,
backoff_factor)` (backup.py lines 265-297). -/
def retry_with_backoff {E A : Type} (op : Nat → Except E A) (maxRetries : Nat)
    (initialDelay maxDelay backoffFactor : ℚ) : Option (Except E A) × List ℚ × Nat :=
  retryGo op maxDelay backoffFactor 0 initialDelay maxRetries

/-! ## Exit-code logic of `main` (backup.py lines 689-841) -/

/-- The configuration and startup facts `main` checks before doing any work:
the bucket name (line 700, falsy when empty), the four database credential
variables (line 704, each falsy when unset or empty), and whether the GCS
client initialization at lines 709-719 succeeds. -/
structure StartupConfig where
  gcsBucket : String
  dbHost : Option String
  dbName : Option String
  dbUser : Option String
  dbPassword : Option String
  gcsConnectOk : Bool
  deriving DecidableEq, Repr

/-- Python truthiness of an optional string: `None` and `""` are falsy. -/
def truthyStr : Option String → Bool
  | none => false
  | some s => !(s == "")

/-- The process exit code chosen by `main` (backup.py lines 699-719 for the
startup checks and lines 826-841 for the end-of-run decision), as a function
of the startup configuration and of the `new_files` counter, the error list
and the database-backup flag reaching the summary.  `db_success` is
deliberately ignored by the code (lines 783-787). -/
def mainExitCode (c : StartupConfig) (newFiles : Nat) (errors : List String)
    (dbSuccess : Bool) : Nat :=
  if c.gcsBucket == "" then 1
  else if !(truthyStr c.dbHost && truthyStr c.dbName && truthyStr c.dbUser &&
      truthyStr c.dbPassword) then 1
  else if !c.gcsConnectOk then 1
  else
    match errors, dbSuccess with
    | [], _ => 0
    | _ :: _, _ => if 0 < newFiles then 0 else 1

/-! ## Lock structure of manifest flushes and commits (backup.py)

`backup_library_files` creates a local `manifest_lock = threading.Lock()`
(line 461) which guards every worker upsert (line 376), the periodic commits
and GCS saves (lines 421, 429) and the final commit (line 559).  `main`
creates a second, distinct `_global_manifest_lock = threading.Lock()`
(line 728) which guards the signal-handler flush (line 682), the atexit flush
(line 734) and the fatal-error flush (line 752).  We record which lock each
site acquires and give a small interleaving semantics for two lock-guarded
critical sections. -/

/-- The two distinct `threading.Lock()` objects. -/
inductive LockId where
  | pipelineManifestLock
  | globalManifestLock
  deriving DecidableEq, Repr

/-- Code sites that flush, commit or upsert the manifest under a lock. -/
inductive FlushSite where
  | workerUpsert
  | workerCommit
  | periodicGcsSave
  | finalCommit
  | signalFlush
  | atexitFlush
  | fatalErrorFlush
  deriving DecidableEq, Repr

/-- The lock each site acquires, read off the `with` statements of backup.py
(lines 376, 421, 429, 559 use `manifest_lock`; lines 682, 734, 752 use
`_global_manifest_lock`). -/
def lockOf : FlushSite → LockId
  | FlushSite.workerUpsert => LockId.pipelineManifestLock
  | FlushSite.workerCommit => LockId.pipelineManifestLock
  | FlushSite.periodicGcsSave => LockId.pipelineManifestLock
  | FlushSite.finalCommit => LockId.pipelineManifestLock
  | FlushSite.signalFlush => LockId.globalManifestLock
  | FlushSite.atexitFlush => LockId.globalManifestLock
  | FlushSite.fatalErrorFlush => LockId.globalManifestLock

/-- The two threads of the race in question: a pipeline worker mid-commit and
the shutdown (signal) handler mid-flush. -/
inductive Thread where
  | worker
  | shutdown
  deriving DecidableEq, Repr

/-- Actions of a lock-guarded critical section. -/
inductive Action where
  | acq (l : LockId)
  | rel (l : LockId)
  | critWork
  deriving DecidableEq, Repr

/-- The program a thread runs for one critical section guarded by lock `l`. -/
def threadProgram (l : LockId) : List Action :=
  [Action.acq l, Action.critWork, Action.rel l]

/-- Projection of an interleaved trace onto one thread. -/
def projThread (t : Thread) (tr : List (Thread × Action)) : List Action :=
  (tr.filter (fun e => e.1 == t)).map (fun e => e.2)

/-- Lock discipline: an acquire succeeds only when the lock is free, a release
only by the holder.  `held` maps each lock to the thread holding it. -/
def locksOk : List (Thread × Action) → (LockId → Option Thread) → Bool
  | [], _ => true
  | (t, Action.acq l) :: rest, held =>
    match held l with
    | none => locksOk rest (fun x => if x = l then some t else held x)
    | some _ => false
  | (t, Action.rel l) :: rest, held =>
    match held l with
    | some t0 => t0 == t && locksOk rest (fun x => if x = l then none else held x)
    | none => false
  | (_, Action.critWork) :: rest, held => locksOk rest held

/-- A thread is inside its critical section after the events `p` when it has
acquired but not yet released. -/
def inSection (t : Thread) (p : List (Thread × Action)) : Bool :=
  let acts := projThread t p
  acts.any (fun a => match a with | Action.acq _ => true | _ => false) &&
    !acts.any (fun a => match a with | Action.rel _ => true | _ => false)

/-- Whether at some instant of the trace both threads are simultaneously
inside their critical sections. -/
def overlapHappens (tr : List (Thread × Action)) : Bool :=
  (List.range (tr.length + 1)).any
    (fun k => inSection Thread.worker (tr.take k) && inSection Thread.shutdown (tr.take k))

/-- A trace is a valid interleaving of the worker commit (guarded by the lock
of `workerCommit`) and the shutdown flush (guarded by the lock of
`signalFlush`) when each thread runs exactly its program and the lock
discipline is respected from the all-free initial state. -/
def validCommitFlushTrace (tr : List (Thread × Action)) : Bool :=
  projThread Thread.worker tr == threadProgram (lockOf FlushSite.workerCommit) &&
    projThread Thread.shutdown tr == threadProgram (lockOf FlushSite.signalFlush) &&
    locksOk tr (fun _ => none)

/-- The interleaving in which the shutdown flush starts while the worker is
mid-commit: possible exactly because the two sites acquire different locks. -/
def raceTrace : List (Thread × Action) :=
  [ (Thread.worker, Action.acq (lockOf FlushSite.workerCommit)),
    (Thread.shutdown, Action.acq (lockOf FlushSite.signalFlush)),
    (Thread.worker, Action.critWork),
    (Thread.shutdown, Action.critWork),
    (Thread.worker, Action.rel (lockOf FlushSite.workerCommit)),
    (Thread.shutdown, Action.rel (lockOf FlushSite.signalFlush)) ]

/-! ## verify-restore.py `main` and its malformed try statement (lines 155-174)

`main` opens `try:` at line 155; the indented suite ends at line 172 and the
next statement at the same indentation as the `try` (line 174) is
`logger.info(...)`, not an `except` or `finally` clause.  Python requires at
least one handler or a finally clause, so compiling the module raises
SyntaxError before any statement of the module runs. -/

/-- A Python `try` statement: its suite (statement texts), its number of
`except` clauses, and whether it has a `finally` clause. -/
structure TryStmt where
  body : List String
  exceptClauses : Nat
  hasFinally : Bool
  deriving DecidableEq, Repr

/-- Grammatical well-formedness of a `try` statement: a non-empty suite and at
least one `except` clause or a `finally` clause. -/
def tryWellFormed (t : TryStmt) : Bool :=
  !t.body.isEmpty && (t.exceptClauses != 0 || t.hasFinally)

/-- The `try` statement opened at verify-restore.py line 155: its suite is
lines 156-172 and it is followed (line 174) by an ordinary statement, so it
has zero `except` clauses and no `finally`. -/
def verifyRestoreMainTry : TryStmt :=
  { body :=
      [ "cursor = conn.execute(SELECT COUNT( * ) as count FROM files)",
        "total_count = cursor.fetchone()[count]",
        "if total_count == 0: warn and exit 0",
        "sample_size = min(VERIFY_SAMPLE_SIZE, total_count)",
        "cursor = conn.execute(SELECT ... ORDER BY RANDOM() LIMIT ?)",
        "sample = cursor.fetchall()" ]
    exceptClauses := 0
    hasFinally := false }

/-- Loading the verify-restore module: Python compiles the whole file before
executing anything, so a malformed statement fails the load. -/
inductive ModuleLoad where
  | loadFails
  | loadedOk
  deriving DecidableEq, Repr

/-- Outcome of compiling verify-restore.py, determined by the well-formedness
of the `try` statement of `main`. -/
def compileVerifyRestore : ModuleLoad :=
  if tryWellFormed verifyRestoreMainTry then ModuleLoad.loadedOk else ModuleLoad.loadFails

/-- An invocation of the verification path: when the module loads, `main`
would connect to storage, load the manifest and verify the sample (lines
139-221); when the load fails, none of those actions happen (`none`). -/
def verifyRestoreRun : Option (List String) :=
  match compileVerifyRestore with
  | ModuleLoad.loadFails => none
  | ModuleLoad.loadedOk =>
    some ["connect to GCS", "load manifest", "verify random sample"]

/-! ## Concrete data used by the witnesses -/

/-- A manifest row: 10-byte file with a recorded digest. -/
def demoEntry : Entry := Entry.mk "sha256:aaaa" 10 false

/-- A one-row manifest. -/
def demoManifest : Manifest := [("/a.jpg", demoEntry)]

/-- Environment of a file whose content silently changed (hash differs from
the recorded one) while its size stayed at 10 bytes. -/
def demoEnvSizeMatch : FileEnv :=
  FileEnv.mk (some 10) (some "sha256:bbbb") true true true true

/-- Environment of a file whose size changed to 11 bytes but whose upload
fails after all retries. -/
def demoEnvUploadFail : FileEnv :=
  FileEnv.mk (some 11) (some "sha256:cccc") false true true true

/-- Environment of a file whose size changed to 11 bytes but whose content
hash still equals the recorded one (truncate-then-rewrite scenario). -/
def demoEnvHashMatch : FileEnv :=
  FileEnv.mk (some 11) (some "sha256:aaaa") true true true true

/-- A two-file source tree with distinct paths. -/
def demoTree : List FileRec :=
  [FileRec.mk "/a.jpg" 10 "sha256:aaaa", FileRec.mk "/b/c.mp4" 20 "sha256:bbbb"]

/-- Remote state whose snapshot exists and downloads but is not a readable
database. -/
def corruptRemote : RemoteState := RemoteState.mk true true true false []

/-- Remote state with a readable one-row snapshot. -/
def goodRemote : RemoteState := RemoteState.mk true true true true demoManifest

/-- A retried operation that fails on its first invocation and succeeds on
its second. -/
def demoOp : Nat → Except String Nat :=
  fun i => if i = 0 then Except.error "transient" else Except.ok 42

/-! ## Helper lemmas about the manifest table -/

theorem get_file_info_update_self (m : Manifest) (p : String) (e : Entry) :
    get_file_info (update_file_info m p e) p = some e := by
  induction m with
  | nil => simp [update_file_info, get_file_info]
  | cons kv rest ih =>
    by_cases hq : kv.1 = p
    · simp [update_file_info, hq, get_file_info]
    · simp [update_file_info, hq, get_file_info, ih]

theorem get_file_info_update_ne (m : Manifest) (p q : String) (e : Entry)
    (h : q ≠ p) : get_file_info (update_file_info m p e) q = get_file_info m q := by
  have hpq : p ≠ q := fun hh => h hh.symm
  induction m with
  | nil => simp [update_file_info, get_file_info, hpq]
  | cons kv rest ih =>
    by_cases hq : kv.1 = p
    · simp [update_file_info, get_file_info, hq, hpq]
    · simp only [update_file_info, hq, if_false, get_file_info]
      by_cases hkq : kv.1 = q <;> simp [hkq, ih]

/-! ## Helper lemmas about `_process_single_file` -/

/-- Every run of `_process_single_file` either confirms the whole upload
chain and replaces exactly the entry of its own path, or leaves the manifest
untouched with a non-`uploaded` outcome. -/
theorem psf_shape (env : FileEnv) (p : String) (m : Manifest) :
    ((processSingleFile env p m).1 = Status.uploaded ∧ env.uploadOk = true ∧
      env.reloadOk = true ∧ env.setClassOk = true ∧ env.verifyOk = true ∧
      ∃ size checksum, env.statResult = some size ∧ env.hashResult = some checksum ∧
        (processSingleFile env p m).2.1 = update_file_info m p (Entry.mk checksum size false))
    ∨ ((processSingleFile env p m).1 ≠ Status.uploaded ∧
        (processSingleFile env p m).2.1 = m) := by
  obtain ⟨st, hs, u, r, sc, v⟩ := env
  cases st with
  | none => right; exact ⟨by simp [processSingleFile], rfl⟩
  | some n =>
    rcases Bool.eq_false_or_eq_true (fastSkipCheck m p n) with hfast | hfast
    · right
      constructor <;> simp [processSingleFile, hfast]
    · cases hs with
      | none =>
        right
        constructor <;> simp [processSingleFile, hfast]
      | some h =>
        rcases Bool.eq_false_or_eq_true (hashSkipCheck m p h) with hskip | hskip
        · right
          constructor <;> simp [processSingleFile, hfast, hskip]
        · cases u <;> cases r <;> cases sc <;> cases v <;>
            first
            | (left
               refine ⟨by simp [processSingleFile, hfast, hskip, afterHash], rfl, rfl,
                 rfl, rfl, n, h, rfl, rfl,
                 by simp [processSingleFile, hfast, hskip, afterHash]⟩)
            | (right
               constructor <;> simp [processSingleFile, hfast, hskip, afterHash])

/-- The fast path (backup.py lines 316-322): entry present with matching
size yields `skipped` with only the stat effect. -/
theorem psf_fastskip (env : FileEnv) (p : String) (m : Manifest) (n : Nat)
    (henv : env.statResult = some n) (hfast : fastSkipCheck m p n = true) :
    processSingleFile env p m = (Status.skipped, m, [Effect.statE]) := by
  simp [processSingleFile, henv, hfast]

/-- Reduction of `_process_single_file` to its upload stage when neither skip
check fires. -/
theorem psf_slow_reduce (env : FileEnv) (p : String) (m : Manifest) (n : Nat)
    (h : String) (henv : env.statResult = some n) (hh : env.hashResult = some h)
    (hfast : fastSkipCheck m p n = false) (hskip : hashSkipCheck m p h = false) :
    processSingleFile env p m = afterHash env p m n h := by
  simp [processSingleFile, henv, hh, hfast, hskip]

/-- Whatever the remote outcomes, the upload stage always performs the hash
and attempts the upload. -/
theorem afterHash_effects (env : FileEnv) (p : String) (m : Manifest)
    (n : Nat) (h : String) :
    Effect.hashE ∈ (afterHash env p m n h).2.2 ∧
    Effect.uploadE ∈ (afterHash env p m n h).2.2 := by
  obtain ⟨st, hs, u, r, sc, v⟩ := env
  cases u <;> cases r <;> cases sc <;> cases v <;> simp [afterHash]

/-- When every remote step succeeds, the upload stage reports `uploaded`. -/
theorem afterHash_success (env : FileEnv) (p : String) (m : Manifest)
    (n : Nat) (h : String) (hu : env.uploadOk = true) (hr : env.reloadOk = true)
    (hsc : env.setClassOk = true) (hv : env.verifyOk = true) :
    (afterHash env p m n h).1 = Status.uploaded := by
  simp [afterHash, hu, hr, hsc, hv]

/-- Unfolding of one step of the pipeline fold. -/
theorem runTasks_cons (m : Manifest) (t : FileEnv × String)
    (rest : List (FileEnv × String)) :
    runTasks m (t :: rest) =
      ((runTasks (processSingleFile t.1 t.2 m).2.1 rest).1,
        (processSingleFile t.1 t.2 m).1 ::
          (runTasks (processSingleFile t.1 t.2 m).2.1 rest).2) := rfl

/-- A run none of whose outcomes is `uploaded` leaves the manifest unchanged. -/
theorem runTasks_no_upload (tasks : List (FileEnv × String)) (m : Manifest)
    (h : ∀ s ∈ (runTasks m tasks).2, s ≠ Status.uploaded) :
    (runTasks m tasks).1 = m := by
  induction tasks generalizing m with
  | nil => rfl
  | cons t rest ih =>
    have hhead : (processSingleFile t.1 t.2 m).1 ≠ Status.uploaded := by
      refine h _ ?_
      rw [runTasks_cons]
      exact List.mem_cons_self _ _
    have hm : (processSingleFile t.1 t.2 m).2.1 = m := by
      rcases psf_shape t.1 t.2 m with ⟨h1, _⟩ | ⟨_, h2⟩
      · exact absurd h1 hhead
      · exact h2
    have htail : ∀ s ∈ (runTasks (processSingleFile t.1 t.2 m).2.1 rest).2,
        s ≠ Status.uploaded := by
      intro s hsmem
      refine h s ?_
      rw [runTasks_cons]
      exact List.mem_cons_of_mem _ hsmem
    rw [runTasks_cons]
    dsimp only
    rw [hm] at htail ⊢
    exact ih m htail

/-- Paths never targeted by any task keep their manifest rows across a run. -/
theorem runTasks_lookup_preserve (tasks : List (FileEnv × String)) (m : Manifest)
    (q : String) (h : ∀ t ∈ tasks, t.2 ≠ q) :
    get_file_info (runTasks m tasks).1 q = get_file_info m q := by
  induction tasks generalizing m with
  | nil => rfl
  | cons t rest ih =>
    have hstep : get_file_info (processSingleFile t.1 t.2 m).2.1 q = get_file_info m q := by
      rcases psf_shape t.1 t.2 m with
        ⟨_, _, _, _, _, size, checksum, _, _, heq⟩ | ⟨_, heq⟩
      · rw [heq]
        exact get_file_info_update_ne m t.2 q _ (h t (List.mem_cons_self _ _)).symm
      · rw [heq]
    rw [runTasks_cons]
    dsimp only
    rw [ih _ (fun t2 ht2 => h t2 (List.mem_cons_of_mem _ ht2)), hstep]

/-! ## Claim theorems -/

/-- C1: the backup derivation (`_derive_gcs_path`, backup.py 111-115) and the
verification derivation (verify-restore.py 79-83) agree on every path, but the
restore path (restore.py 245) keeps the leading slash of the stored manifest
path, so for the manifest path "/a/b.jpg" it requests the distinct object
"library//a/b.jpg" instead of "library/a/b.jpg" that backup uploaded to: the
claimed three-way equality of remote locations fails. -/
theorem gcs_path_derivation_bug :
    (∀ p, derive_gcs_path p = verify_derive_gcs_path p) ∧
    derive_gcs_path "/a/b.jpg" = "library/a/b.jpg" ∧
    verify_derive_gcs_path "/a/b.jpg" = "library/a/b.jpg" ∧
    restore_gcs_path "/a/b.jpg" = "library//a/b.jpg" ∧
    restore_gcs_path "/a/b.jpg" ≠ derive_gcs_path "/a/b.jpg" := by
  refine ⟨fun p => rfl, by decide, by decide, by decide, by decide⟩

/-- C2: a failure at any stage of `_process_single_file` (stat, hash, upload,
reload, storage-class patch, confirmation) yields the `error` outcome with the
manifest row untouched; the manifest changes only when the outcome is
`uploaded`, which requires the upload, reload, storage-class and confirmation
steps all to have succeeded; and a run whose every outcome is an error leaves
the files table unchanged. -/
theorem manifest_unchanged_on_failure :
    (∀ (env : FileEnv) (p : String) (m : Manifest),
        (processSingleFile env p m).1 = Status.error →
          (processSingleFile env p m).2.1 = m)
  ∧ (∀ (env : FileEnv) (p : String) (m : Manifest),
        (processSingleFile env p m).2.1 ≠ m →
          (processSingleFile env p m).1 = Status.uploaded ∧ env.uploadOk = true ∧
          env.reloadOk = true ∧ env.setClassOk = true ∧ env.verifyOk = true)
  ∧ (∀ (m : Manifest) (tasks : List (FileEnv × String)),
        (∀ s ∈ (runTasks m tasks).2, s = Status.error) → (runTasks m tasks).1 = m) := by
  refine ⟨?_, ?_, ?_⟩
  · intro env p m herr
    rcases psf_shape env p m with ⟨h1, _⟩ | ⟨_, h2⟩
    · rw [herr] at h1
      exact absurd h1 (by decide)
    · exact h2
  · intro env p m hne
    rcases psf_shape env p m with ⟨h1, h2, h3, h4, h5, _⟩ | ⟨_, h2⟩
    · exact ⟨h1, h2, h3, h4, h5⟩
    · exact absurd h2 hne
  · intro m tasks hall
    refine runTasks_no_upload tasks m ?_
    intro s hsmem
    rw [hall s hsmem]
    decide

/-- C2 witness: a file whose size changed to 11 bytes and whose upload fails
after retries is reported as an error and the one-row manifest is unchanged. -/
theorem manifest_unchanged_on_failure_witness :
    (processSingleFile demoEnvUploadFail "/a.jpg" demoManifest).2.1 = demoManifest :=
  manifest_unchanged_on_failure.1 demoEnvUploadFail "/a.jpg" demoManifest (by decide)

/-- C3: when a manifest entry exists for the path and its recorded size equals
the stat size, `_process_single_file` returns `skipped` with the manifest
unchanged and with the stat as its only effect — no hash is computed and no
remote operation is performed, regardless of the file's actual content (the
environment, including the would-be hash value, is arbitrary). -/
theorem fast_path_skip (env : FileEnv) (p : String) (m : Manifest) (e : Entry)
    (n : Nat) (henv : env.statResult = some n)
    (hlook : get_file_info m p = some e) (hsize : e.size = n) :
    processSingleFile env p m = (Status.skipped, m, [Effect.statE]) ∧
    Effect.hashE ∉ (processSingleFile env p m).2.2 ∧
    Effect.uploadE ∉ (processSingleFile env p m).2.2 := by
  have hfast : fastSkipCheck m p n = true := by
    simp [fastSkipCheck, hlook, hsize]
  have hred := psf_fastskip env p m n henv hfast
  rw [hred]
  exact ⟨rfl, by simp, by simp⟩

/-- C3 witness: the recorded entry has size 10 and digest "sha256:aaaa"; the
file still has size 10, but its content now hashes to "sha256:bbbb"; the
outcome is still `skipped` with only the stat effect. -/
theorem fast_path_skip_witness :
    (demoEnvSizeMatch.statResult = some 10 ∧
      get_file_info demoManifest "/a.jpg" = some demoEntry ∧ demoEntry.size = 10) ∧
    (processSingleFile demoEnvSizeMatch "/a.jpg" demoManifest =
        (Status.skipped, demoManifest, [Effect.statE]) ∧
      Effect.hashE ∉ (processSingleFile demoEnvSizeMatch "/a.jpg" demoManifest).2.2 ∧
      Effect.uploadE ∉ (processSingleFile demoEnvSizeMatch "/a.jpg" demoManifest).2.2) :=
  ⟨⟨by decide, by decide, by decide⟩,
    fast_path_skip demoEnvSizeMatch "/a.jpg" demoManifest demoEntry 10
      (by decide) (by decide) (by decide)⟩

/-- C4: when the file is new or its size differs from the recorded one (the
fast-path check is false) and stat and hashing succeed, the content hash is
computed; if an entry exists whose stored checksum equals the new hash, the
outcome is `skipped` with no upload effect; otherwise the upload is attempted,
and when every remote step succeeds the outcome is `uploaded`. -/
theorem slow_path_hash_decision (env : FileEnv) (p : String) (m : Manifest)
    (n : Nat) (h : String) (henv : env.statResult = some n)
    (hh : env.hashResult = some h) (hfast : fastSkipCheck m p n = false) :
    Effect.hashE ∈ (processSingleFile env p m).2.2
  ∧ (hashSkipCheck m p h = true →
      processSingleFile env p m = (Status.skipped, m, [Effect.statE, Effect.hashE]))
  ∧ (hashSkipCheck m p h = false →
      Effect.uploadE ∈ (processSingleFile env p m).2.2)
  ∧ (hashSkipCheck m p h = false → env.uploadOk = true → env.reloadOk = true →
      env.setClassOk = true → env.verifyOk = true →
      (processSingleFile env p m).1 = Status.uploaded) := by
  rcases Bool.eq_false_or_eq_true (hashSkipCheck m p h) with hskip | hskip
  · have hred : processSingleFile env p m = (Status.skipped, m, [Effect.statE, Effect.hashE]) := by
      simp [processSingleFile, henv, hh, hfast, hskip]
    rw [hred]
    refine ⟨by simp, fun _ => rfl, fun hc => ?_, fun hc => ?_⟩
    · rw [hskip] at hc
      exact absurd hc (by decide)
    · rw [hskip] at hc
      exact absurd hc (by decide)
  · have hred := psf_slow_reduce env p m n h henv hh hfast hskip
    rw [hred]
    refine ⟨(afterHash_effects env p m n h).1, fun hc => ?_, fun _ =>
      (afterHash_effects env p m n h).2, fun _ hu hr hsc hv =>
      afterHash_success env p m n h hu hr hsc hv⟩
    rw [hskip] at hc
    exact absurd hc (by decide)

/-- C4 witness: the recorded entry has size 10; the file now stats at 11
bytes, but its content still hashes to the recorded "sha256:aaaa"
(truncate-then-rewrite scenario): the outcome is `skipped` with the hash
computed and no upload effect. -/
theorem slow_path_hash_decision_witness :
    processSingleFile demoEnvHashMatch "/a.jpg" demoManifest =
      (Status.skipped, demoManifest, [Effect.statE, Effect.hashE]) :=
  (slow_path_hash_decision demoEnvHashMatch "/a.jpg" demoManifest 11 "sha256:aaaa"
      (by decide) (by decide) (by decide)).2.1 (by decide)

/-- A fresh file in a healthy run is uploaded and its row is inserted. -/
theorem psf_fresh (f : FileRec) (m : Manifest)
    (hnone : get_file_info m f.path = none) :
    processSingleFile (happyEnv f) f.path m =
      (Status.uploaded, update_file_info m f.path (Entry.mk f.digest f.size false),
        [Effect.statE, Effect.hashE, Effect.uploadE, Effect.reloadE,
         Effect.setClassE, Effect.verifyE, Effect.upsertE]) := by
  simp [processSingleFile, happyEnv, fastSkipCheck, hashSkipCheck, hnone, afterHash]

/-- First run over a tree of distinct paths none of which is in the manifest:
every outcome is `uploaded` and afterwards every file has its row. -/
theorem runBackup_fresh (tree : List FileRec) (m : Manifest)
    (hnd : (tree.map FileRec.path).Nodup)
    (hfresh : ∀ f ∈ tree, get_file_info m f.path = none) :
    (∀ s ∈ (runBackup tree m).2, s = Status.uploaded) ∧
    (∀ f ∈ tree, get_file_info (runBackup tree m).1 f.path =
        some (Entry.mk f.digest f.size false)) := by
  induction tree generalizing m with
  | nil =>
    constructor
    · intro s hs
      simp [runBackup, runTasks] at hs
    · intro f hf
      simp at hf
  | cons f rest ih =>
    rw [List.map_cons, List.nodup_cons] at hnd
    obtain ⟨hnotin, hndrest⟩ := hnd
    have hstep := psf_fresh f m (hfresh f (List.mem_cons_self _ _))
    have hne : ∀ g ∈ rest, g.path ≠ f.path := by
      intro g hg hgp
      exact hnotin (hgp ▸ List.mem_map_of_mem FileRec.path hg)
    have hfresh2 : ∀ g ∈ rest,
        get_file_info (update_file_info m f.path (Entry.mk f.digest f.size false))
          g.path = none := by
      intro g hg
      rw [get_file_info_update_ne m f.path g.path _ (hne g hg)]
      exact hfresh g (List.mem_cons_of_mem _ hg)
    have hrun : runBackup (f :: rest) m =
        ((runBackup rest (update_file_info m f.path (Entry.mk f.digest f.size false))).1,
          Status.uploaded ::
            (runBackup rest (update_file_info m f.path (Entry.mk f.digest f.size false))).2) := by
      rw [runBackup, List.map_cons, runTasks_cons]
      rw [show ((happyEnv f, f.path) : FileEnv × String).1 = happyEnv f from rfl,
        show ((happyEnv f, f.path) : FileEnv × String).2 = f.path from rfl, hstep]
      rfl
    obtain ⟨ihall, ihpost⟩ :=
      ih (update_file_info m f.path (Entry.mk f.digest f.size false)) hndrest hfresh2
    constructor
    · intro s hs
      rw [hrun] at hs
      rcases List.mem_cons.mp hs with hs | hs
      · exact hs
      · exact ihall s hs
    · intro g hg
      rcases List.mem_cons.mp hg with rfl | hg
      · rw [hrun]
        dsimp only
        have hpres : ∀ t ∈ rest.map (fun f2 => (happyEnv f2, f2.path)),
            t.2 ≠ g.path := by
          intro t ht
          obtain ⟨f2, hf2, rfl⟩ := List.mem_map.mp ht
          exact hne f2 hf2
        rw [runBackup] at *
        rw [runTasks_lookup_preserve _ _ _ hpres]
        exact get_file_info_update_self m g.path _
      · rw [hrun]
        exact ihpost g hg

/-- A run over files that all fast-skip leaves the manifest untouched and
reports `skipped` for every file. -/
theorem runBackup_allskip (tree : List FileRec) (m : Manifest)
    (h : ∀ f ∈ tree, fastSkipCheck m f.path f.size = true) :
    runBackup tree m = (m, tree.map (fun _ => Status.skipped)) := by
  induction tree with
  | nil => rfl
  | cons f rest ih =>
    have hstep := psf_fastskip (happyEnv f) f.path m f.size rfl
      (h f (List.mem_cons_self _ _))
    have htail := ih (fun g hg => h g (List.mem_cons_of_mem _ hg))
    rw [runBackup, List.map_cons, runTasks_cons]
    rw [show ((happyEnv f, f.path) : FileEnv × String).1 = happyEnv f from rfl,
      show ((happyEnv f, f.path) : FileEnv × String).2 = f.path from rfl, hstep]
    dsimp only
    rw [runBackup] at htail
    rw [htail]
    simp

/-- No `uploaded` outcome occurs among all-`skipped` statuses. -/
theorem countUploaded_all_skipped (tree : List FileRec) :
    countUploaded (tree.map (fun _ => Status.skipped)) = 0 := by
  induction tree with
  | nil => rfl
  | cons f rest ih => simpa [countUploaded] using ih

/-- C5: starting from an empty manifest, a run over a tree of distinct paths
(with readable files and a healthy remote) uploads every file; a second run
over the unchanged tree yields `skipped` for every file, zero uploads, and
exactly the same manifest — in particular the same number of rows. -/
theorem backup_idempotent (tree : List FileRec)
    (hnd : (tree.map FileRec.path).Nodup) :
    (∀ s ∈ (runBackup tree []).2, s = Status.uploaded) ∧
    (runBackup tree (runBackup tree []).1).2 = tree.map (fun _ => Status.skipped) ∧
    countUploaded (runBackup tree (runBackup tree []).1).2 = 0 ∧
    (runBackup tree (runBackup tree []).1).1 = (runBackup tree []).1 ∧
    (runBackup tree (runBackup tree []).1).1.length = (runBackup tree []).1.length := by
  obtain ⟨hall, hpost⟩ := runBackup_fresh tree [] hnd (fun f _ => rfl)
  have hskip : ∀ f ∈ tree, fastSkipCheck (runBackup tree []).1 f.path f.size = true := by
    intro f hf
    simp [fastSkipCheck, hpost f hf]
  have h2 := runBackup_allskip tree (runBackup tree []).1 hskip
  refine ⟨hall, ?_, ?_, ?_, ?_⟩
  · rw [h2]
  · rw [h2]
    exact countUploaded_all_skipped tree
  · rw [h2]
  · rw [h2]

/-- C5 witness: the two-file demo tree has distinct paths; the first run from
the empty manifest uploads both files and the second run skips both and keeps
the manifest identical. -/
theorem backup_idempotent_witness :
    (demoTree.map FileRec.path).Nodup ∧
    ((∀ s ∈ (runBackup demoTree []).2, s = Status.uploaded) ∧
      (runBackup demoTree (runBackup demoTree []).1).2 =
        demoTree.map (fun _ => Status.skipped) ∧
      countUploaded (runBackup demoTree (runBackup demoTree []).1).2 = 0 ∧
      (runBackup demoTree (runBackup demoTree []).1).1 = (runBackup demoTree []).1 ∧
      (runBackup demoTree (runBackup demoTree []).1).1.length =
        (runBackup demoTree []).1.length) :=
  ⟨by decide, backup_idempotent demoTree (by decide)⟩

/-- C6 counterexample: when the snapshot exists and downloads but is not a
readable database, `load` does return `False`, but the manifest does NOT
behave as an empty index afterwards: the cached connection is poisoned and
every later lookup raises instead of returning no row. -/
theorem manifest_load_parse_failure_not_empty :
    (loadManifest corruptRemote).1 = false ∧
    connLookup (loadManifest corruptRemote).2.1 "/a.jpg" = Except.error () ∧
    ¬ (∀ p, connLookup (loadManifest corruptRemote).2.1 p = Except.ok none) := by
  refine ⟨rfl, rfl, fun h => ?_⟩
  have h2 := h "/a.jpg"
  rw [show connLookup (loadManifest corruptRemote).2.1 "/a.jpg" = Except.error () from rfl] at h2
  exact Except.noConfusion h2

/-- C6 (amended): `load` never raises — it totalizes every remote situation
into a returned flag.  It returns `True`, with the reported file count equal
to the snapshot's row count, exactly when the existence check, the fetch and
the parse all succeed; otherwise it returns `False`.  After a `False` caused
by an absent snapshot or a failed existence check or fetch, every later
lookup sees an empty index; but after a `False` caused by a parse failure of
the downloaded snapshot, every later lookup raises. -/
theorem manifest_load_characterization (r : RemoteState) :
    ((loadManifest r).1 = true ↔
      (r.existsCheckOk = true ∧ r.snapshotExists = true ∧ r.fetchOk = true ∧
        r.parseOk = true))
  ∧ ((loadManifest r).1 = true → (loadManifest r).2.2 = some r.snapshot.length)
  ∧ ((r.existsCheckOk = false ∨ r.snapshotExists = false ∨ r.fetchOk = false) →
      (loadManifest r).1 = false ∧
      ∀ p, connLookup (loadManifest r).2.1 p = Except.ok none)
  ∧ (r.existsCheckOk = true → r.snapshotExists = true → r.fetchOk = true →
      r.parseOk = false →
      (loadManifest r).1 = false ∧
      ∀ p, connLookup (loadManifest r).2.1 p = Except.error ()) := by
  obtain ⟨e1, e2, e3, e4, snap⟩ := r
  cases e1 <;> cases e2 <;> cases e3 <;> cases e4 <;>
    simp [loadManifest, connLookup]

/-- C6 witness: a healthy remote with a one-row snapshot loads with
`found = True` and a reported count of 1. -/
theorem manifest_load_characterization_witness :
    (loadManifest goodRemote).2.2 = some 1 :=
  (manifest_load_characterization goodRemote).2.1 (by decide)

/-- C8: the exit code of `main` is 0 exactly when the bucket name is present,
all four database credential variables are truthy, the GCS client connects,
and either no per-file errors occurred or at least one new file was backed
up; the database-dump flag plays no role in the exit code. -/
theorem exit_code_spec (c : StartupConfig) (newFiles : Nat)
    (errors : List String) (dbSuccess : Bool) :
    mainExitCode c newFiles errors dbSuccess = 0 ↔
      (¬ c.gcsBucket = "" ∧ truthyStr c.dbHost = true ∧ truthyStr c.dbName = true ∧
        truthyStr c.dbUser = true ∧ truthyStr c.dbPassword = true ∧
        c.gcsConnectOk = true ∧ (errors = [] ∨ 0 < newFiles)) := by
  obtain ⟨b, dh, dn, du, dp, gok⟩ := c
  by_cases hb : b = ""
  · subst hb
    simp [mainExitCode]
  · cases hdh : truthyStr dh <;> cases hdn : truthyStr dn <;>
      cases hdu : truthyStr du <;> cases hdp : truthyStr dp <;> cases gok <;>
      cases errors <;> by_cases hnf : 0 < newFiles <;>
      simp [mainExitCode, hb, hdh, hdn, hdu, hdp, hnf]

/-- C9: the shutdown (signal-handler) flush is guarded by
`_global_manifest_lock` while the pipeline workers' upserts and commits are
guarded by the distinct local `manifest_lock` of `backup_library_files`, and
consequently there is a lock-discipline-respecting interleaving in which the
shutdown flush and a worker commit are simultaneously inside their critical
sections — the claimed mutual exclusion does not hold. -/
theorem shutdown_flush_lock_mismatch :
    lockOf FlushSite.signalFlush ≠ lockOf FlushSite.workerCommit ∧
    lockOf FlushSite.signalFlush ≠ lockOf FlushSite.workerUpsert ∧
    lockOf FlushSite.atexitFlush ≠ lockOf FlushSite.workerCommit ∧
    validCommitFlushTrace raceTrace = true ∧
    overlapHappens raceTrace = true := by
  refine ⟨by decide, by decide, by decide, by decide, by decide⟩

/-- C10: the `try` statement opened at verify-restore.py line 155 has no
`except` clause and no `finally` clause, so it is not well-formed Python;
compiling the module therefore fails, and an invocation of the verification
path performs none of its actions — it fails before connecting to storage or
verifying any file. -/
theorem verify_restore_load_failure :
    tryWellFormed verifyRestoreMainTry = false ∧
    compileVerifyRestore = ModuleLoad.loadFails ∧
    verifyRestoreRun = none := by
  refine ⟨by decide, by decide, by decide⟩

/-! ## Helper lemmas about `retry_with_backoff` -/

/-- Shifting the start of the delay sequence by one step. -/
theorem delayAt_shift (d0 maxD f : ℚ) :
    ∀ i, delayAt d0 maxD f (i + 1) = delayAt (nextDelay maxD f d0) maxD f i := by
  intro i
  induction i with
  | zero => rfl
  | succ j ih =>
    show nextDelay maxD f (delayAt d0 maxD f (j + 1)) =
      nextDelay maxD f (delayAt (nextDelay maxD f d0) maxD f j)
    rw [ih]

/-- The first `j + 1` delays from start `d0` are `d0` followed by the first
`j` delays from start `nextDelay d0`. -/
theorem range_map_delay_shift (d0 maxD f : ℚ) (j : Nat) :
    (List.range (j + 1)).map (delayAt d0 maxD f) =
      d0 :: (List.range j).map (delayAt (nextDelay maxD f d0) maxD f) := by
  rw [List.range_succ_eq_map, List.map_cons, List.map_map]
  refine congrArg (fun l => delayAt d0 maxD f 0 :: l) ?_
  refine List.map_congr_left ?_
  intro i _
  show delayAt d0 maxD f (i + 1) = delayAt (nextDelay maxD f d0) maxD f i
  exact delayAt_shift d0 maxD f i

/-- Single unfolding of one loop iteration. -/
theorem retryGo_step {E A : Type} (op : Nat → Except E A) (maxD f : ℚ)
    (att : Nat) (d : ℚ) (n : Nat) :
    retryGo op maxD f att d (n + 1) =
      if isErr (op att) = false then (some (op att), [], 1)
      else if n = 0 then (some (op att), [], 1)
      else
        ((retryGo op maxD f (att + 1) (min (d * f) maxD) n).1,
          d :: (retryGo op maxD f (att + 1) (min (d * f) maxD) n).2.1,
          (retryGo op maxD f (att + 1) (min (d * f) maxD) n).2.2 + 1) := rfl

/-- The operation is invoked at most `remaining` times. -/
theorem retryGo_count_le {E A : Type} (op : Nat → Except E A) (maxD f : ℚ) :
    ∀ (n att : Nat) (d : ℚ), (retryGo op maxD f att d n).2.2 ≤ n := by
  intro n
  induction n with
  | zero =>
    intro att d
    simp [retryGo]
  | succ n ih =>
    intro att d
    rcases Bool.eq_false_or_eq_true (isErr (op att)) with hop | hop
    · rw [retryGo_step, hop]
      cases n with
      | zero => simp
      | succ k =>
        have hrec := ih (att + 1) (min (d * f) maxD)
        simp
        omega
    · rw [retryGo_step, hop]
      simp

/-- If the first `k` invocations starting at `att` fail and invocation
`att + k` succeeds with `a`, within the remaining budget, the loop returns
`ok a` after exactly `k` sleeps following the delay recurrence, having
invoked the operation `k + 1` times. -/
theorem retryGo_success {E A : Type} (op : Nat → Except E A) (maxD f : ℚ) :
    ∀ (k : Nat) (a : A) (att : Nat) (d : ℚ) (n : Nat), k < n →
      (∀ i, i < k → isErr (op (att + i)) = true) → op (att + k) = Except.ok a →
      retryGo op maxD f att d n =
        (some (Except.ok a), (List.range k).map (delayAt d maxD f), k + 1) := by
  intro k
  induction k with
  | zero =>
    intro a att d n hk hfail hok
    obtain ⟨m, rfl⟩ : ∃ m, n = m + 1 := ⟨n - 1, by omega⟩
    rw [Nat.add_zero] at hok
    simp [retryGo, hok, isErr]
  | succ j ih =>
    intro a att d n hk hfail hok
    obtain ⟨m, rfl⟩ : ∃ m, n = m + 2 := ⟨n - 2, by omega⟩
    have h0 : isErr (op att) = true := by
      have := hfail 0 (by omega)
      rwa [Nat.add_zero] at this
    have hfail2 : ∀ i, i < j → isErr (op (att + 1 + i)) = true := by
      intro i hi
      have := hfail (i + 1) (by omega)
      rwa [show att + (i + 1) = att + 1 + i by omega] at this
    have hok2 : op (att + 1 + j) = Except.ok a := by
      rwa [show att + 1 + j = att + (j + 1) by omega]
    have hrec := ih a (att + 1) (min (d * f) maxD) (m + 1) (by omega) hfail2 hok2
    rw [retryGo_step, h0, hrec, range_map_delay_shift]
    simp [nextDelay]

/-- If every invocation within the budget fails, the loop performs
`n - 1` sleeps following the delay recurrence, invokes the operation `n`
times, and propagates the error of the last invocation. -/
theorem retryGo_allfail {E A : Type} (op : Nat → Except E A) (maxD f : ℚ) :
    ∀ (n att : Nat) (d : ℚ) (es : Nat → E), 1 ≤ n →
      (∀ i, i < n → op (att + i) = Except.error (es i)) →
      retryGo op maxD f att d n =
        (some (Except.error (es (n - 1))),
          (List.range (n - 1)).map (delayAt d maxD f), n) := by
  intro n
  induction n with
  | zero =>
    intro att d es h1
    omega
  | succ m ih =>
    intro att d es h1 herr
    have h0 : op att = Except.error (es 0) := by
      have := herr 0 (by omega)
      rwa [Nat.add_zero] at this
    cases m with
    | zero => simp [retryGo, h0, isErr]
    | succ k =>
      have herr2 : ∀ i, i < k + 1 → op (att + 1 + i) = Except.error (es (i + 1)) := by
        intro i hi
        have := herr (i + 1) (by omega)
        rwa [show att + (i + 1) = att + 1 + i by omega] at this
      have hrec := ih (att + 1) (min (d * f) maxD) (fun i => es (i + 1))
        (by omega) herr2
      rw [show (k + 1 : Nat) - 1 = k by omega] at hrec
      have h0e : isErr (op att) = true := by rw [h0]; rfl
      rw [retryGo_step, h0e, hrec,
        show (k + 1 + 1 : Nat) - 1 = k + 1 by omega, range_map_delay_shift]
      simp [nextDelay]

/-- Closed form of the delay sequence when the parameters are sensible:
nonnegative initial delay below the cap and growth factor at least one. -/
theorem delayAt_closed_form (d0 maxD f : ℚ) (h0 : 0 ≤ d0) (h1 : d0 ≤ maxD)
    (hf : 1 ≤ f) : ∀ i, delayAt d0 maxD f i = min (d0 * f ^ i) maxD := by
  intro i
  induction i with
  | zero =>
    show d0 = min (d0 * f ^ 0) maxD
    rw [pow_zero, mul_one, min_eq_left h1]
  | succ j ih =>
    show nextDelay maxD f (delayAt d0 maxD f j) = min (d0 * f ^ (j + 1)) maxD
    rw [ih, nextDelay]
    have hnn : 0 ≤ d0 * f ^ j := by positivity
    rcases le_or_lt (d0 * f ^ j) maxD with hle | hlt
    · rw [min_eq_left hle, pow_succ, ← mul_assoc]
    · have hm0 : 0 ≤ maxD := le_trans h0 h1
      rw [min_eq_right (le_of_lt hlt)]
      rw [min_eq_right (le_mul_of_one_le_right hm0 hf)]
      have hbig : maxD ≤ d0 * f ^ (j + 1) := by
        have hstep : d0 * f ^ j ≤ d0 * f ^ j * f := le_mul_of_one_le_right hnn hf
        rw [pow_succ, ← mul_assoc]
        exact le_trans (le_of_lt hlt) hstep
      rw [min_eq_right hbig]

/-! ## C7 theorems -/

/-- C7 counterexample: with `initial_delay = 2 > max_delay = 1` and two
attempts of an always-failing operation, the single sleep lasts 2 seconds —
the code sleeps the uncapped `initial_delay` first — whereas the claimed
formula `min(initialDelay * growthFactor^0, maxDelay)` gives 1. -/
theorem retry_first_sleep_uncapped :
    (retry_with_backoff (fun _ => (Except.error "boom" : Except String Nat))
        2 2 1 2).2.1 = [2] ∧
    min ((2 : ℚ) * 2 ^ 0) 1 = 1 ∧ ((2 : ℚ)) ≠ 1 := by
  refine ⟨rfl, by norm_num, by norm_num⟩

/-- C7 (amended): `retry_with_backoff` invokes the operation at most
`maxRetries` times; if the first `k` invocations fail and invocation `k`
(zero-based, within the budget) succeeds, its result is returned after
exactly `k` sleeps and `k + 1` invocations; if all `maxRetries ≥ 1`
invocations fail, the error of the last invocation propagates after
`maxRetries - 1` sleeps.  The i-th sleep follows the recurrence
`d 0 = initialDelay`, `d (i+1) = min (d i * growthFactor) maxDelay`; when
`0 ≤ initialDelay ≤ maxDelay` and `growthFactor ≥ 1` this equals the claimed
`min (initialDelay * growthFactor ^ i) maxDelay`, but the very first sleep is
always the uncapped `initialDelay`. -/
theorem retry_with_backoff_spec {E A : Type} (op : Nat → Except E A) (n : Nat)
    (d0 maxD f : ℚ) :
    ((retry_with_backoff op n d0 maxD f).2.2 ≤ n)
  ∧ (∀ (k : Nat) (a : A), k < n → (∀ i, i < k → isErr (op i) = true) →
      op k = Except.ok a →
      retry_with_backoff op n d0 maxD f =
        (some (Except.ok a), (List.range k).map (delayAt d0 maxD f), k + 1))
  ∧ (∀ es : Nat → E, 1 ≤ n → (∀ i, i < n → op i = Except.error (es i)) →
      retry_with_backoff op n d0 maxD f =
        (some (Except.error (es (n - 1))),
          (List.range (n - 1)).map (delayAt d0 maxD f), n))
  ∧ delayAt d0 maxD f 0 = d0
  ∧ (0 ≤ d0 → d0 ≤ maxD → 1 ≤ f →
      ∀ i, delayAt d0 maxD f i = min (d0 * f ^ i) maxD) := by
  refine ⟨retryGo_count_le op maxD f n 0 d0, ?_, ?_, rfl,
    fun h0 h1 hf => delayAt_closed_form d0 maxD f h0 h1 hf⟩
  · intro k a hk hfail hok
    refine retryGo_success op maxD f k a 0 d0 n hk ?_ (by simpa using hok)
    intro i hi
    simpa using hfail i hi
  · intro es h1 herr
    refine retryGo_allfail op maxD f n 0 d0 es h1 ?_
    intro i hi
    simpa using herr i hi

/-- C7 witness: an operation failing once then succeeding, run with budget 3,
initial delay 1, cap 60, factor 2: the result 42 is returned after one sleep
and two invocations. -/
theorem retry_with_backoff_spec_witness :
    retry_with_backoff demoOp 3 1 60 2 =
      (some (Except.ok 42), (List.range 1).map (delayAt 1 60 2), 2) :=
  (retry_with_backoff_spec demoOp 3 1 60 2).2.1 1 42 (by decide) (by decide) rfl

end ImmichBackup
